import Mathlib

/-!
Shallow embedding of the prediction-aggregation and presentation-state
controller of `src/frontend/src/App.js` (the `App` component and its
`handleSubmit` function), together with proofs about its behaviour.

Modelling decisions:
* Prices are rational numbers (`ℚ`), standing in for the JSON numbers
  returned by the remote endpoint.
* The remote prediction service is an oracle
  `String → String → Option Price`, keyed by the raw path components of the
  request URL `http://localhost:8000/predict/{sf}/{bd}` (the code
  interpolates the raw strings). `none` models any request failure
  (network error, non-2xx, malformed body) — in the source every such
  failure rejects the promise and lands in the single `catch` block.
* The component state is the four `useState` variables that
  `handleSubmit` touches (`predictedPrice`, `error`, `chartData`,
  `loading`) plus the two input strings it reads.
* A run of `handleSubmit` is a list of events — state-setter calls and
  issued network requests — in exactly the order the source performs
  them; the final state is the left fold of the setters over the
  starting state.  Recording requests as events lets us state which
  requests are issued and in what position relative to the setters.
* `Promise.all`'s index-order aggregation is modelled separately
  (`fillSlots` / `promiseAllByIndex`): completions arrive in an
  arbitrary order, each settles the slot of its own request index, and
  the joined value reads the slots back in index order.
* JS `parseInt` / `parseFloat` are modelled on their decimal fragment
  (optional leading spaces, optional sign, digit runs, `parseFloat`
  also a fractional part) — the only inputs here come from numeric form
  fields, and the source uses the default radix.
-/

set_option autoImplicit false

abbrev Price := ℚ

/-- The remote prediction collaborator: maps the two raw URL path
components to a predicted price, or `none` on failure. -/
abbrev Oracle := String → String → Option Price

/-- Value of a run of decimal digits, most significant first. -/
def digitsVal (ds : List Char) : Nat :=
  ds.foldl (fun a c => 10 * a + (c.toNat - 48)) 0

/-- Split an optional leading sign off a character list. -/
def signSplit : List Char → Int × List Char
  | '-' :: cs => (-1, cs)
  | '+' :: cs => (1, cs)
  | cs => (1, cs)

/-- Decimal fragment of JS `parseInt` (`App.js` line 96): skip spaces,
optional sign, then the longest run of digits; `none` models `NaN`. -/
def jsParseInt (raw : String) : Option Int :=
  let cs := (raw.toList).dropWhile (fun c => c = ' ')
  let sc := signSplit cs
  let ds := sc.2.takeWhile (fun c => c.isDigit)
  if ds.isEmpty then none else some (sc.1 * (digitsVal ds : Int))

/-- The pieces of a decimal literal: `(sign, integer digits value,
fractional digits value, number of fractional digits)`. `none` models
`NaN` (no digits at all). -/
def decimalParts (raw : String) : Option (Int × Nat × Nat × Nat) :=
  let cs := (raw.toList).dropWhile (fun c => c = ' ')
  let sc := signSplit cs
  let ds := sc.2.takeWhile (fun c => c.isDigit)
  let rest := sc.2.dropWhile (fun c => c.isDigit)
  let fs := match rest with
    | '.' :: cs2 => cs2.takeWhile (fun c => c.isDigit)
    | _ => []
  if ds.isEmpty && fs.isEmpty then none
  else some (sc.1, digitsVal ds, digitsVal fs, fs.length)

/-- Decimal fragment of JS `parseFloat` / string-to-number coercion:
integer digits, then an optional `.` and fractional digits. `none`
models `NaN`. -/
def jsParseFloat (raw : String) : Option ℚ :=
  (decimalParts raw).map
    (fun t => (t.1 : ℚ) * ((t.2.1 : ℚ) + (t.2.2.1 : ℚ) / (10 : ℚ) ^ t.2.2.2))

/-- The fixed reference sweep of square-footage values (`App.js` line 75:
`const squareFootages = [1000, 1500, 2000, 2500, 3000]`). -/
def squareFootages : List Nat := [1000, 1500, 2000, 2500, 3000]

/-- The single user-facing error message (`App.js` line 107). -/
def errorMessage : String := "Error predicting price. Please try again."

/-- A point of the "Your Prediction" dataset: `x` is the result of
`parseInt` on the raw square footage (`none` models `NaN`), `y` the
primary predicted price (`App.js` line 96). -/
structure ChartPoint where
  x : Option Int
  y : Price
deriving DecidableEq

/-- The chart data built on full success (`App.js` lines 84-104):
`labels` is the x-axis, `predictedPricesData` the data of the
"Predicted Prices" dataset, `yourPredictionData` the data of the
"Your Prediction" dataset. -/
structure ChartData where
  labels : List Nat
  predictedPricesData : List Price
  yourPredictionData : List ChartPoint
deriving DecidableEq

/-- The component state touched by `handleSubmit`, as four independent
`useState` variables plus the two raw input strings the handler reads. -/
structure AppState where
  squareFootage : String
  bedrooms : String
  predictedPrice : Option Price
  error : String
  chartData : Option ChartData
  loading : Bool
deriving DecidableEq

/-- Component state at mount (`App.js` lines 56-61). -/
def initialState : AppState :=
  { squareFootage := ""
    bedrooms := ""
    predictedPrice := none
    error := ""
    chartData := none
    loading := false }

/-- One step of a `handleSubmit` run: a state-setter call or an issued
network request (the raw URL path components). -/
inductive Event where
  | setPredictedPrice (p : Option Price)
  | setError (e : String)
  | setChartData (c : Option ChartData)
  | setLoading (b : Bool)
  | request (sf bd : String)
deriving DecidableEq

/-- Effect of an event on the component state; a network request does
not itself change state. -/
def applyEvent (s : AppState) : Event → AppState
  | .setPredictedPrice p => { s with predictedPrice := p }
  | .setError e => { s with error := e }
  | .setChartData c => { s with chartData := c }
  | .setLoading b => { s with loading := b }
  | .request _ _ => s

/-- The five auxiliary responses, one per reference square footage, in
request order (`App.js` lines 76-82: `squareFootages.map(sf => axios.get(...))`). -/
def auxResponses (predict : Oracle) (bd : String) : List (Option Price) :=
  squareFootages.map (fun sf => predict (toString sf) bd)

/-- All-or-nothing join of a batch of responses, as `Promise.all`
resolves or rejects: `some` of all values iff every response succeeded. -/
def collectResponses : List (Option Price) → Option (List Price)
  | [] => some []
  | none :: _ => none
  | some p :: rest => (collectResponses rest).map (fun ps => p :: ps)

/-- The chart data built on full success (`App.js` lines 84-103): labels
are the reference sweep, the first dataset holds the auxiliary
predictions, the second the single highlighted point
`{x: parseInt(squareFootage), y: response.data.predicted_price}`. -/
def mkChartData (rawSf : String) (primary : Price) (predictions : List Price) : ChartData :=
  { labels := squareFootages
    predictedPricesData := predictions
    yourPredictionData := [{ x := jsParseInt rawSf, y := primary }] }

/-- The event trace of one `handleSubmit` run (`App.js` lines 63-112),
in source order: synchronously clear error and price and set loading;
issue the primary request; on primary failure the `catch` block sets the
error and `finally` clears loading; on primary success set the price,
issue the five auxiliary requests, and either build the chart data (all
succeeded) or fall into the same `catch`. -/
def handleSubmitEvents (predict : Oracle) (sf bd : String) : List Event :=
  [.setError "", .setPredictedPrice none, .setLoading true, .request sf bd] ++
  match predict sf bd with
  | none => [.setError errorMessage, .setLoading false]
  | some p =>
    [.setPredictedPrice (some p)] ++
    squareFootages.map (fun r => .request (toString r) bd) ++
    match collectResponses (auxResponses predict bd) with
    | none => [.setError errorMessage, .setLoading false]
    | some predictions =>
      [.setChartData (some (mkChartData sf p predictions)), .setLoading false]

/-- Final component state after a completed `handleSubmit` run. -/
def handleSubmit (predict : Oracle) (s : AppState) : AppState :=
  (handleSubmitEvents predict s.squareFootage s.bedrooms).foldl applyEvent s

/-- Project a request event to its URL path components. -/
def requestOf : Event → Option (String × String)
  | .request sf bd => some (sf, bd)
  | _ => none

/-- The network requests issued by one `handleSubmit` run, in issue order. -/
def requestsIssued (predict : Oracle) (sf bd : String) : List (String × String) :=
  (handleSubmitEvents predict sf bd).filterMap requestOf

/-- Slot filling for `Promise.all`: completions arrive in `order` (a list of
request indices); each settles the slot of its own index with that
request's value, independent of arrival position. -/
def fillSlots (result : Nat → Price) : List Nat → (Nat → Option Price) → (Nat → Option Price)
  | [], slots => slots
  | i :: rest, slots => fillSlots result rest (fun j => if j = i then some (result i) else slots j)

/-- Read the slots back in index order; `some` iff every listed slot settled. -/
def collectSlots : List Nat → (Nat → Option Price) → Option (List Price)
  | [], _ => some []
  | i :: rest, slots =>
    match slots i, collectSlots rest slots with
    | some v, some vs => some (v :: vs)
    | _, _ => none

/-- The value `Promise.all` resolves with, for `n` requests whose values
are `result` and whose completions arrive in `order`: slots are filled
in arrival order and read back in request-index order. -/
def promiseAllByIndex (n : Nat) (result : Nat → Price) (order : List Nat) : Option (List Price) :=
  collectSlots (List.range n) (fillSlots result order (fun _ => none))

/-- JS truthiness of the `predictedPrice` state variable: `null` and `0`
are falsy. -/
def jsTruthyPrice : Option Price → Bool
  | none => false
  | some p => decide (p ≠ 0)

/-- Whether the success section (`Predicted Price: $...` and the chart
container) renders: the JSX guards it with `{predictedPrice && (...)}`
(`App.js` line 166). -/
def rendersPredictedPrice (s : AppState) : Bool :=
  jsTruthyPrice s.predictedPrice

/-- Whether the chart itself renders: nested inside the success section
under the further guard `{chartData && (...)}` (`App.js` line 172). -/
def rendersChart (s : AppState) : Bool :=
  rendersPredictedPrice s && s.chartData.isSome

/-- The mock collaborator of the spec's example scenario:
`price = 200*sf + 10000*bedrooms`, with the raw URL components coerced
to numbers. -/
def mockOracle : Oracle := fun sfStr bdStr =>
  match jsParseFloat sfStr, jsParseFloat bdStr with
  | some a, some b => some (200 * a + 10000 * b)
  | _, _ => none

/-- A component state about to submit the given raw inputs. -/
def submitState (sf bd : String) : AppState :=
  { initialState with squareFootage := sf, bedrooms := bd }

/-- A collaborator that answers every request with price 7. -/
def oracleAllOk : Oracle := fun _ _ => some 7

/-- A collaborator on which every request fails. -/
def oracleAllFail : Oracle := fun _ _ => none

/-- A collaborator on which exactly the reference request at 2000 sqft
fails. -/
def oracleAuxFail : Oracle := fun sf _ => if sf = "2000" then none else some 7

/-- A collaborator on which only the primary request (at 100 sqft)
succeeds and every reference request fails. -/
def oraclePrimaryOnly : Oracle := fun sf _ => if sf = "100" then some 5 else none

/-- A collaborator that predicts price 0 for every request. -/
def oracleZero : Oracle := fun _ _ => some 0

/-- A collaborator that predicts price 1 for every request. -/
def oracleOne : Oracle := fun _ _ => some 1

example : jsParseInt "1200.5" = some 1200 := by decide
example : decimalParts "1200.5" = some (1, 1200, 5, 1) := by decide
example : jsParseFloat "1200.5" = some (2401 / 2 : ℚ) := by
  have h : decimalParts "1200.5" = some (1, 1200, 5, 1) := by decide
  rw [jsParseFloat, h]
  norm_num
example : jsParseFloat "3" = some 3 := by
  have h : decimalParts "3" = some (1, 3, 0, 0) := by decide
  rw [jsParseFloat, h]
  norm_num
example : mockOracle "1200" "3" = some 270000 := by
  have h1 : decimalParts "1200" = some (1, 1200, 0, 0) := by decide
  have h3 : decimalParts "3" = some (1, 3, 0, 0) := by decide
  simp only [mockOracle, jsParseFloat, h1, h3, Option.map_some']
  norm_num

/-! ## Helper lemmas -/

theorem collectResponses_eq_none_of_mem (l : List (Option Price)) (h : none ∈ l) :
    collectResponses l = none := by
  induction l with
  | nil => cases h
  | cons x rest ih =>
    cases x with
    | none => rfl
    | some p =>
      rcases List.mem_cons.mp h with h1 | h2
      · exact absurd h1.symm (Option.some_ne_none p)
      · rw [collectResponses, ih h2]
        rfl

theorem collectResponses_map_eq_some {α : Type} (l : List α) (g : α → Option Price)
    (f : α → Price) (h : ∀ r ∈ l, g r = some (f r)) :
    collectResponses (l.map g) = some (l.map f) := by
  induction l with
  | nil => rfl
  | cons x rest ih =>
    rw [List.map_cons, List.map_cons, h x (List.mem_cons_self x rest),
      collectResponses, ih (fun r hr => h r (List.mem_cons_of_mem x hr))]
    rfl

theorem handleSubmit_primary_fail (predict : Oracle) (s : AppState)
    (hp : predict s.squareFootage s.bedrooms = none) :
    handleSubmit predict s =
      { s with predictedPrice := none, error := errorMessage, loading := false } := by
  unfold handleSubmit handleSubmitEvents
  rw [hp]
  rfl

theorem handleSubmit_aux_fail (predict : Oracle) (s : AppState) (p : Price)
    (hp : predict s.squareFootage s.bedrooms = some p)
    (haux : collectResponses (auxResponses predict s.bedrooms) = none) :
    handleSubmit predict s =
      { s with predictedPrice := some p, error := errorMessage, loading := false } := by
  unfold handleSubmit handleSubmitEvents
  rw [hp, haux]
  rfl

theorem handleSubmit_success (predict : Oracle) (s : AppState) (p : Price)
    (predictions : List Price)
    (hp : predict s.squareFootage s.bedrooms = some p)
    (haux : collectResponses (auxResponses predict s.bedrooms) = some predictions) :
    handleSubmit predict s =
      { s with
        predictedPrice := some p
        error := ""
        chartData := some (mkChartData s.squareFootage p predictions)
        loading := false } := by
  unfold handleSubmit handleSubmitEvents
  rw [hp, haux]
  rfl

theorem fillSlots_eq_of_not_mem (result : Nat → Price) (order : List Nat)
    (slots : Nat → Option Price) (i : Nat) (hi : i ∉ order) :
    fillSlots result order slots i = slots i := by
  induction order generalizing slots with
  | nil => rfl
  | cons j rest ih =>
    have hij : i ≠ j := fun h => hi (h ▸ List.mem_cons_self j rest)
    have hrest : i ∉ rest := fun h => hi (List.mem_cons_of_mem j h)
    rw [fillSlots, ih _ hrest]
    simp [hij]

theorem fillSlots_eq_of_mem (result : Nat → Price) (order : List Nat)
    (slots : Nat → Option Price) (i : Nat) (hi : i ∈ order) :
    fillSlots result order slots i = some (result i) := by
  induction order generalizing slots with
  | nil => cases hi
  | cons j rest ih =>
    by_cases h : i ∈ rest
    · exact ih _ h
    · have hij : i = j := by
        rcases List.mem_cons.mp hi with h1 | h2
        · exact h1
        · exact absurd h2 h
      rw [fillSlots, fillSlots_eq_of_not_mem _ _ _ _ h]
      simp [hij]

theorem collectSlots_eq_map (idxs : List Nat) (slots : Nat → Option Price)
    (f : Nat → Price) (h : ∀ i ∈ idxs, slots i = some (f i)) :
    collectSlots idxs slots = some (idxs.map f) := by
  induction idxs with
  | nil => rfl
  | cons i rest ih =>
    rw [collectSlots, h i (List.mem_cons_self i rest),
      ih (fun j hj => h j (List.mem_cons_of_mem i hj))]
    rfl

theorem promiseAllByIndex_eq (n : Nat) (result : Nat → Price) (order : List Nat)
    (h : ∀ i < n, i ∈ order) :
    promiseAllByIndex n result order = some ((List.range n).map result) := by
  unfold promiseAllByIndex
  exact collectSlots_eq_map _ _ _
    (fun i hi => fillSlots_eq_of_mem _ _ _ _ (h i (List.mem_range.mp hi)))

/-! ## Claim theorems -/

/-- C1: if the primary prediction succeeds but at least one of the five
auxiliary requests fails, the run ends in the Failure presentation —
the error message is set, loading is cleared, and no new chart data is
published — even though the primary succeeded (all-or-nothing join). -/
theorem c1_aux_failure_all_or_nothing (predict : Oracle) (s : AppState) (p : Price)
    (hp : predict s.squareFootage s.bedrooms = some p)
    (haux : ∃ r ∈ squareFootages, predict (toString r) s.bedrooms = none) :
    (handleSubmit predict s).error = errorMessage
    ∧ (handleSubmit predict s).loading = false
    ∧ (handleSubmit predict s).chartData = s.chartData := by
  obtain ⟨r, hr, hfail⟩ := haux
  have hnone : (none : Option Price) ∈ auxResponses predict s.bedrooms := by
    unfold auxResponses
    rw [← hfail]
    exact List.mem_map_of_mem _ hr
  rw [handleSubmit_aux_fail predict s p hp (collectResponses_eq_none_of_mem _ hnone)]
  exact ⟨rfl, rfl, rfl⟩

/-- C1 witness: primary (1200, 2) succeeds with price 7 while the
reference request at 2000 square feet fails. -/
theorem c1_aux_failure_all_or_nothing_witness :
    (handleSubmit oracleAuxFail (submitState "1200" "2")).error = errorMessage
    ∧ (handleSubmit oracleAuxFail (submitState "1200" "2")).loading = false
    ∧ (handleSubmit oracleAuxFail (submitState "1200" "2")).chartData
        = (submitState "1200" "2").chartData :=
  c1_aux_failure_all_or_nothing oracleAuxFail (submitState "1200" "2") 7 rfl
    ⟨2000, by decide, rfl⟩

/-- C2: if the primary prediction request fails, the run issues exactly
the one primary request — zero auxiliary requests — and ends in the
Failure presentation carrying "Error predicting price. Please try
again.". -/
theorem c2_primary_failure_short_circuit (predict : Oracle) (s : AppState)
    (hp : predict s.squareFootage s.bedrooms = none) :
    requestsIssued predict s.squareFootage s.bedrooms
        = [(s.squareFootage, s.bedrooms)]
    ∧ (handleSubmit predict s).error = errorMessage
    ∧ (handleSubmit predict s).loading = false := by
  refine ⟨?_, ?_, ?_⟩
  · unfold requestsIssued handleSubmitEvents
    rw [hp]
    rfl
  · rw [handleSubmit_primary_fail predict s hp]
  · rw [handleSubmit_primary_fail predict s hp]

/-- C2 witness: every request fails, submitted inputs (900, 1). -/
theorem c2_primary_failure_short_circuit_witness :
    requestsIssued oracleAllFail "900" "1" = [("900", "1")]
    ∧ (handleSubmit oracleAllFail (submitState "900" "1")).error = errorMessage
    ∧ (handleSubmit oracleAllFail (submitState "900" "1")).loading = false :=
  c2_primary_failure_short_circuit oracleAllFail (submitState "900" "1") rfl

/-- C6: every `handleSubmit` run synchronously clears the previous error
and predicted price and sets the loading flag, and only then issues its
first network request: the event trace begins with exactly those three
setter events followed immediately by the primary request, and folding
the three setters over any prior state yields a cleared error, a cleared
price and loading set. -/
theorem c6_sync_loading_before_requests (predict : Oracle) (sf bd : String) (s : AppState) :
    (∃ rest, handleSubmitEvents predict sf bd
        = Event.setError "" :: Event.setPredictedPrice none :: Event.setLoading true
          :: Event.request sf bd :: rest)
    ∧ ([Event.setError "", Event.setPredictedPrice none,
          Event.setLoading true].foldl applyEvent s).error = ""
    ∧ ([Event.setError "", Event.setPredictedPrice none,
          Event.setLoading true].foldl applyEvent s).predictedPrice = none
    ∧ ([Event.setError "", Event.setPredictedPrice none,
          Event.setLoading true].foldl applyEvent s).loading = true := by
  exact ⟨⟨_, rfl⟩, rfl, rfl, rfl⟩

/-- C7: every completed `handleSubmit` run — full success, primary
failure or auxiliary failure — ends with the loading flag cleared; the
controller does not remain in Loading after completion. -/
theorem c7_loading_always_cleared (predict : Oracle) (s : AppState) :
    (handleSubmit predict s).loading = false := by
  rcases hp : predict s.squareFootage s.bedrooms with _ | p
  · rw [handleSubmit_primary_fail predict s hp]
  · rcases haux : collectResponses (auxResponses predict s.bedrooms) with _ | preds
    · rw [handleSubmit_aux_fail predict s p hp haux]
    · rw [handleSubmit_success predict s p preds hp haux]

theorem collectResponses_exists_of_forall (l : List (Option Price))
    (h : ∀ x ∈ l, ∃ v, x = some v) :
    ∃ ps, collectResponses l = some ps := by
  induction l with
  | nil => exact ⟨[], rfl⟩
  | cons x rest ih =>
    obtain ⟨v, hv⟩ := h x (List.mem_cons_self x rest)
    obtain ⟨ps, hps⟩ := ih (fun y hy => h y (List.mem_cons_of_mem x hy))
    subst hv
    rw [collectResponses, hps]
    exact ⟨v :: ps, rfl⟩

/-- C3: on a fully successful submission the auxiliary results are
merged in the fixed reference order 1000, 1500, 2000, 2500, 3000
regardless of completion order: for every completion order covering all
five request indices, `Promise.all`'s joined value is the
request-index-ordered list (aggregation is by request index, not
completion order), and the chart series `handleSubmit` publishes is the
reference-ordered list of auxiliary prices. -/
theorem c3_merge_in_reference_order (predict : Oracle) (s : AppState) (p : Price)
    (f : Nat → Price) (order : List Nat)
    (hp : predict s.squareFootage s.bedrooms = some p)
    (hf : ∀ r ∈ squareFootages, predict (toString r) s.bedrooms = some (f r))
    (horder : ∀ i < squareFootages.length, i ∈ order) :
    promiseAllByIndex squareFootages.length (fun i => f (squareFootages.getD i 0)) order
        = some (squareFootages.map f)
    ∧ ∃ cd, (handleSubmit predict s).chartData = some cd
        ∧ cd.predictedPricesData = squareFootages.map f
        ∧ cd.labels = squareFootages := by
  have hcollect : collectResponses (auxResponses predict s.bedrooms)
      = some (squareFootages.map f) :=
    collectResponses_map_eq_some squareFootages _ f hf
  constructor
  · rw [promiseAllByIndex_eq squareFootages.length _ order horder]
    rfl
  · rw [handleSubmit_success predict s p _ hp hcollect]
    exact ⟨_, rfl, rfl, rfl⟩

/-- C3 witness: all requests succeed with price 7 and the completion
order 2, 0, 1, 3, 4 (request #3 resolves before #1); the merged series
is still in reference order. -/
theorem c3_merge_in_reference_order_witness :
    promiseAllByIndex squareFootages.length
        (fun i => (fun _ => (7 : Price)) (squareFootages.getD i 0)) [2, 0, 1, 3, 4]
      = some (squareFootages.map (fun _ => (7 : Price)))
    ∧ ∃ cd, (handleSubmit oracleAllOk (submitState "1500" "2")).chartData = some cd
        ∧ cd.predictedPricesData = squareFootages.map (fun _ => (7 : Price))
        ∧ cd.labels = squareFootages :=
  c3_merge_in_reference_order oracleAllOk (submitState "1500" "2") 7 (fun _ => 7)
    [2, 0, 1, 3, 4] rfl (fun _ _ => rfl) (by decide)

/-- C4: for a valid numeric input pair, when the collaborator succeeds on
all six requests (one primary plus five reference) the run ends in the
Success presentation — error cleared, loading cleared, price set — and
the published chart series has exactly five reference points plus
exactly one highlighted point at (parsed submitted square footage,
primary price). -/
theorem c4_full_success_series_shape (predict : Oracle) (s : AppState) (p : Price)
    (f : Nat → Price) (n : Int)
    (hn : jsParseInt s.squareFootage = some n)
    (hp : predict s.squareFootage s.bedrooms = some p)
    (hf : ∀ r ∈ squareFootages, predict (toString r) s.bedrooms = some (f r)) :
    (handleSubmit predict s).error = ""
    ∧ (handleSubmit predict s).loading = false
    ∧ (handleSubmit predict s).predictedPrice = some p
    ∧ ∃ cd, (handleSubmit predict s).chartData = some cd
        ∧ cd.predictedPricesData.length = 5
        ∧ cd.yourPredictionData = [{ x := some n, y := p }] := by
  have hcollect : collectResponses (auxResponses predict s.bedrooms)
      = some (squareFootages.map f) :=
    collectResponses_map_eq_some squareFootages _ f hf
  rw [handleSubmit_success predict s p _ hp hcollect]
  refine ⟨rfl, rfl, rfl, mkChartData s.squareFootage p (squareFootages.map f), rfl, rfl, ?_⟩
  show [ChartPoint.mk (jsParseInt s.squareFootage) p] = [ChartPoint.mk (some n) p]
  rw [hn]

/-- C4 witness: all requests succeed with price 7, inputs (1500, 2). -/
theorem c4_full_success_series_shape_witness :
    (handleSubmit oracleAllOk (submitState "1500" "2")).error = ""
    ∧ (handleSubmit oracleAllOk (submitState "1500" "2")).loading = false
    ∧ (handleSubmit oracleAllOk (submitState "1500" "2")).predictedPrice = some 7
    ∧ ∃ cd, (handleSubmit oracleAllOk (submitState "1500" "2")).chartData = some cd
        ∧ cd.predictedPricesData.length = 5
        ∧ cd.yourPredictionData = [{ x := some 1500, y := (7 : Price) }] :=
  c4_full_success_series_shape oracleAllOk (submitState "1500" "2") 7 (fun _ => 7) 1500
    (by decide) rfl (fun _ _ => rfl)

/-- C5 counterexample: with a collaborator on which the primary
(100, 2) succeeds with price 5 and every auxiliary request fails, the
run ends with the Failure message set AND the predicted price still
set to 5: the Failure presentation carries a predicted price alongside
the error, refuting "a Failure state carries only the message" and the
wholesale-replacement reading. -/
theorem c5_counterexample :
    (handleSubmit oraclePrimaryOnly (submitState "100" "2")).error = errorMessage
    ∧ (handleSubmit oraclePrimaryOnly (submitState "100" "2")).predictedPrice = some 5
    ∧ (handleSubmit oraclePrimaryOnly (submitState "100" "2")).loading = false := by
  rw [handleSubmit_aux_fail oraclePrimaryOnly (submitState "100" "2") 5 rfl rfl]
  exact ⟨rfl, rfl, rfl⟩

/-- C5 (amended): every completed run ends with loading cleared and the
error either empty (Success) or the single failure message (Failure);
but the state is four independently updated variables, not one
wholesale-replaced value: when the primary succeeds and an auxiliary
request fails, the Failure outcome still carries the primary predicted
price alongside the error message, and previous chart data is not
cleared. -/
theorem c5_amended_independent_state (predict : Oracle) (s : AppState) (p : Price)
    (hp : predict s.squareFootage s.bedrooms = some p)
    (haux : ∃ r ∈ squareFootages, predict (toString r) s.bedrooms = none) :
    (∀ q : Oracle, ∀ t : AppState, (handleSubmit q t).loading = false
        ∧ ((handleSubmit q t).error = "" ∨ (handleSubmit q t).error = errorMessage))
    ∧ (handleSubmit predict s).error = errorMessage
    ∧ (handleSubmit predict s).predictedPrice = some p
    ∧ (handleSubmit predict s).chartData = s.chartData := by
  obtain ⟨r, hr, hfail⟩ := haux
  have hnone : (none : Option Price) ∈ auxResponses predict s.bedrooms := by
    unfold auxResponses
    rw [← hfail]
    exact List.mem_map_of_mem _ hr
  refine ⟨?_, ?_⟩
  · intro q t
    rcases hq : q t.squareFootage t.bedrooms with _ | v
    · rw [handleSubmit_primary_fail q t hq]
      exact ⟨rfl, Or.inr rfl⟩
    · rcases hx : collectResponses (auxResponses q t.bedrooms) with _ | preds
      · rw [handleSubmit_aux_fail q t v hq hx]
        exact ⟨rfl, Or.inr rfl⟩
      · rw [handleSubmit_success q t v preds hq hx]
        exact ⟨rfl, Or.inl rfl⟩
  · rw [handleSubmit_aux_fail predict s p hp (collectResponses_eq_none_of_mem _ hnone)]
    exact ⟨rfl, rfl, rfl⟩

/-- C5 (amended) witness: primary (100, 2) succeeds with price 5, every
auxiliary request fails. -/
theorem c5_amended_independent_state_witness :
    (∀ q : Oracle, ∀ t : AppState, (handleSubmit q t).loading = false
        ∧ ((handleSubmit q t).error = "" ∨ (handleSubmit q t).error = errorMessage))
    ∧ (handleSubmit oraclePrimaryOnly (submitState "100" "2")).error = errorMessage
    ∧ (handleSubmit oraclePrimaryOnly (submitState "100" "2")).predictedPrice = some 5
    ∧ (handleSubmit oraclePrimaryOnly (submitState "100" "2")).chartData
        = (submitState "100" "2").chartData :=
  c5_amended_independent_state oraclePrimaryOnly (submitState "100" "2") 5 rfl
    ⟨1000, by decide, rfl⟩

/-- C9: when the primary prediction succeeds with price 0 and all
auxiliary requests succeed, the state ends holding price 0, yet the
success section does not render: the JSX guard `{predictedPrice && ...}`
treats 0 as falsy, so neither the price text nor the chart is shown, as
if no submission had succeeded. -/
theorem c9_zero_price_not_rendered (predict : Oracle) (s : AppState)
    (hp : predict s.squareFootage s.bedrooms = some 0)
    (hf : ∀ r ∈ squareFootages, ∃ v, predict (toString r) s.bedrooms = some v) :
    (handleSubmit predict s).predictedPrice = some 0
    ∧ rendersPredictedPrice (handleSubmit predict s) = false
    ∧ rendersChart (handleSubmit predict s) = false := by
  have hx : ∀ x ∈ auxResponses predict s.bedrooms, ∃ v, x = some v := by
    unfold auxResponses
    intro x hmem
    obtain ⟨r, hr, hrx⟩ := List.mem_map.mp hmem
    obtain ⟨v, hv⟩ := hf r hr
    exact ⟨v, by rw [← hrx, hv]⟩
  obtain ⟨ps, hps⟩ := collectResponses_exists_of_forall _ hx
  rw [handleSubmit_success predict s 0 ps hp hps]
  have hr0 : jsTruthyPrice (some (0 : Price)) = false := by
    simp [jsTruthyPrice]
  refine ⟨rfl, hr0, ?_⟩
  simp [rendersChart, rendersPredictedPrice, jsTruthyPrice]

/-- C9 witness: every request succeeds with price 0, inputs (800, 2). -/
theorem c9_zero_price_not_rendered_witness :
    (handleSubmit oracleZero (submitState "800" "2")).predictedPrice = some 0
    ∧ rendersPredictedPrice (handleSubmit oracleZero (submitState "800" "2")) = false
    ∧ rendersChart (handleSubmit oracleZero (submitState "800" "2")) = false :=
  c9_zero_price_not_rendered oracleZero (submitState "800" "2") rfl
    (fun _ _ => ⟨0, rfl⟩)

/-- C10: the primary request is issued with the raw square-footage
string untruncated (it is the first request of the run), while the
highlighted point's x-coordinate is `parseInt` of that raw string; when
the raw string denotes a number with a nonzero fractional part, the
truncated x differs from that number. -/
theorem c10_highlight_truncated_vs_raw_request (predict : Oracle) (s : AppState)
    (p : Price) (f : Nat → Price) (n : Int) (q : ℚ)
    (hn : jsParseInt s.squareFootage = some n)
    (hq : jsParseFloat s.squareFootage = some q)
    (hfrac : q.den ≠ 1)
    (hp : predict s.squareFootage s.bedrooms = some p)
    (hf : ∀ r ∈ squareFootages, predict (toString r) s.bedrooms = some (f r)) :
    (requestsIssued predict s.squareFootage s.bedrooms).head?
        = some (s.squareFootage, s.bedrooms)
    ∧ ∃ cd, (handleSubmit predict s).chartData = some cd
        ∧ cd.yourPredictionData = [{ x := some n, y := p }]
        ∧ (n : ℚ) ≠ q := by
  have hcollect : collectResponses (auxResponses predict s.bedrooms)
      = some (squareFootages.map f) :=
    collectResponses_map_eq_some squareFootages _ f hf
  refine ⟨?_, mkChartData s.squareFootage p (squareFootages.map f), ?_, ?_, ?_⟩
  · unfold requestsIssued handleSubmitEvents
    rw [hp]
    rfl
  · rw [handleSubmit_success predict s p _ hp hcollect]
  · show [ChartPoint.mk (jsParseInt s.squareFootage) p] = [ChartPoint.mk (some n) p]
    rw [hn]
  · intro hcontra
    apply hfrac
    rw [← hcontra, Rat.den_intCast]

/-- C10 witness: raw input "1200.5" with bedrooms "3" and a collaborator
answering 1 everywhere: the request carries "1200.5" while the
highlighted x is 1200, and 1200 differs from 2401/2. -/
theorem c10_highlight_truncated_vs_raw_request_witness :
    (requestsIssued oracleOne "1200.5" "3").head? = some ("1200.5", "3")
    ∧ ∃ cd, (handleSubmit oracleOne (submitState "1200.5" "3")).chartData = some cd
        ∧ cd.yourPredictionData = [{ x := some 1200, y := (1 : Price) }]
        ∧ ((1200 : Int) : ℚ) ≠ (2401 / 2 : ℚ) :=
  c10_highlight_truncated_vs_raw_request oracleOne (submitState "1200.5" "3") 1
    (fun _ => 1) 1200 (2401 / 2) (by decide)
    (by
      show jsParseFloat "1200.5" = some (2401 / 2 : ℚ)
      have h : decimalParts "1200.5" = some (1, 1200, 5, 1) := by decide
      rw [jsParseFloat, h]
      norm_num)
    (by norm_num) rfl (fun _ _ => rfl)

theorem mockOracle_primary : mockOracle "1200" "3" = some 270000 := by
  have h1 : decimalParts "1200" = some (1, 1200, 0, 0) := by decide
  have h3 : decimalParts "3" = some (1, 3, 0, 0) := by decide
  simp only [mockOracle, jsParseFloat, h1, h3, Option.map_some']
  norm_num

theorem mockOracle_at_1000 : mockOracle (toString (1000 : Nat)) "3" = some 230000 := by
  have h : decimalParts (toString (1000 : Nat)) = some (1, 1000, 0, 0) := by decide
  have h3 : decimalParts "3" = some (1, 3, 0, 0) := by decide
  simp only [mockOracle, jsParseFloat, h, h3, Option.map_some']
  norm_num

theorem mockOracle_at_1500 : mockOracle (toString (1500 : Nat)) "3" = some 330000 := by
  have h : decimalParts (toString (1500 : Nat)) = some (1, 1500, 0, 0) := by decide
  have h3 : decimalParts "3" = some (1, 3, 0, 0) := by decide
  simp only [mockOracle, jsParseFloat, h, h3, Option.map_some']
  norm_num

theorem mockOracle_at_2000 : mockOracle (toString (2000 : Nat)) "3" = some 430000 := by
  have h : decimalParts (toString (2000 : Nat)) = some (1, 2000, 0, 0) := by decide
  have h3 : decimalParts "3" = some (1, 3, 0, 0) := by decide
  simp only [mockOracle, jsParseFloat, h, h3, Option.map_some']
  norm_num

theorem mockOracle_at_2500 : mockOracle (toString (2500 : Nat)) "3" = some 530000 := by
  have h : decimalParts (toString (2500 : Nat)) = some (1, 2500, 0, 0) := by decide
  have h3 : decimalParts "3" = some (1, 3, 0, 0) := by decide
  simp only [mockOracle, jsParseFloat, h, h3, Option.map_some']
  norm_num

theorem mockOracle_at_3000 : mockOracle (toString (3000 : Nat)) "3" = some 630000 := by
  have h : decimalParts (toString (3000 : Nat)) = some (1, 3000, 0, 0) := by decide
  have h3 : decimalParts "3" = some (1, 3, 0, 0) := by decide
  simp only [mockOracle, jsParseFloat, h, h3, Option.map_some']
  norm_num

theorem mockOracle_collect :
    collectResponses (auxResponses mockOracle "3")
      = some [230000, 330000, 430000, 530000, 630000] := by
  unfold auxResponses squareFootages
  simp only [List.map_cons, List.map_nil]
  rw [mockOracle_at_1000, mockOracle_at_1500, mockOracle_at_2000, mockOracle_at_2500,
    mockOracle_at_3000]
  rfl

/-- C8 counterexample: with the spec's mock collaborator
(price = 200*sf + 10000*bedrooms), submit("1200", "3") ends with a
primary predicted price of 270000 — not 280000 as the claim states
(200*1200 + 10000*3 = 270000). -/
theorem c8_counterexample :
    (handleSubmit mockOracle (submitState "1200" "3")).predictedPrice = some 270000
    ∧ (handleSubmit mockOracle (submitState "1200" "3")).predictedPrice ≠ some 280000 := by
  rw [handleSubmit_success mockOracle (submitState "1200" "3") 270000 _ mockOracle_primary
    mockOracle_collect]
  refine ⟨rfl, ?_⟩
  intro h
  have h2 : (270000 : Price) = 280000 := Option.some.inj h
  norm_num at h2

/-- C8 (amended): submit("1200", "3") with the mock collaborator
price = 200*sf + 10000*bedrooms yields primary price 270000 and a
5-point reference series [230000, 330000, 430000, 530000, 630000] plus
one highlighted point at (1200, 270000). -/
theorem c8_amended_example_scenario :
    (handleSubmit mockOracle (submitState "1200" "3")).predictedPrice = some 270000
    ∧ (handleSubmit mockOracle (submitState "1200" "3")).error = ""
    ∧ (handleSubmit mockOracle (submitState "1200" "3")).loading = false
    ∧ (handleSubmit mockOracle (submitState "1200" "3")).chartData = some
        { labels := [1000, 1500, 2000, 2500, 3000]
          predictedPricesData := [230000, 330000, 430000, 530000, 630000]
          yourPredictionData := [{ x := some 1200, y := 270000 }] } := by
  rw [handleSubmit_success mockOracle (submitState "1200" "3") 270000 _ mockOracle_primary
    mockOracle_collect]
  refine ⟨rfl, rfl, rfl, ?_⟩
  show some (mkChartData "1200" 270000 [230000, 330000, 430000, 530000, 630000]) = _
  rw [mkChartData]
  simp [squareFootages, show jsParseInt "1200" = some 1200 from by decide]
